import Mathlib

/-!
Verification of the speech-demo capture→resample→buffer→paced-delivery
pipeline (`src/ui/src/App.tsx`) against its natural-language specification.

Audio samples are modelled as rationals (the claims under study concern
lengths, ordering and control flow, never floating-point rounding of
amplitudes).  The React component's mutable refs become fields of an
explicit `AppState`; the single-threaded JS event loop with async
suspension points becomes a step function `stepE` over an event type whose
events are exactly the atomic (non-suspended) segments of the handlers in
the source: clicking start/stop, the resolution or rejection of each
`fetch`, and one `onaudioprocess` capture callback.
-/

namespace SpeechDemo

/-- JS `Math.round`: round half up, i.e. the floor of `q + 1/2`. -/
def jsRound (q : ℚ) : ℤ := (q + 1 / 2).floor

/-- `TARGET_SR` constant from `App.tsx` (line 29). -/
def TARGET_SR : ℚ := 16000

/-- `CHUNK_MS` constant from `App.tsx` (line 30). -/
def CHUNK_MS : ℚ := 500

/-- The chunk size `Math.round(TARGET_SR * (CHUNK_MS / 1000))` computed in
`pump` (line 87); `chunkSamples_spec` proves this literal is that value. -/
def chunkSamples : ℕ := 8000

/-- `concatFloat32` (lines 32-37): a fresh array holding `a` then `b`. -/
def concatFloat32 (a b : List ℚ) : List ℚ := a ++ b

/-- `resampleLinear` (lines 39-52).  Identity when the rates agree;
otherwise linear interpolation into `Math.max(0, Math.round(n * ratio))`
output samples.  Out-of-range reads are modelled by `getD _ 0`. -/
def resampleLinear (input : List ℚ) (srcSr dstSr : ℚ) : List ℚ :=
  if srcSr = dstSr then input
  else
    let rr := dstSr / srcSr
    let outLen := (max 0 (jsRound ((input.length : ℚ) * rr))).toNat
    (List.range outLen).map (fun (i : ℕ) =>
      let x : ℚ := (i : ℚ) / rr
      let x0 : ℤ := ⌊x⌋
      let x1 : ℤ := min (x0 + 1) ((input.length : ℤ) - 1)
      let t : ℚ := x - (x0 : ℚ)
      input.getD x0.toNat 0 * (1 - t) + input.getD x1.toNat 0 * t)

/-- The SegmentBuffer pop idiom from `pump` (lines 90-92): when at least
`c` samples are buffered, split off the first `c` (`slice(0, c)` /
`slice(c)`); otherwise no extraction. -/
def popChunk (c : ℕ) (buf : List ℚ) : Option (List ℚ × List ℚ) :=
  if c ≤ buf.length then some (buf.take c, buf.drop c) else none

/-- One SegmentBuffer operation: an `append` of resampled samples
(line 168) or an attempted fixed-size extraction (lines 90-92). -/
inductive BufOp where
  | append (xs : List ℚ)
  | pop
deriving DecidableEq

/-- Apply one buffer operation to (buffer, extracted chunks so far). -/
def applyOp (c : ℕ) (st : List ℚ × List (List ℚ)) : BufOp → List ℚ × List (List ℚ)
  | BufOp.append xs => (concatFloat32 st.1 xs, st.2)
  | BufOp.pop =>
    match popChunk c st.1 with
    | some (chunk, rest) => (rest, st.2 ++ [chunk])
    | none => st

/-- Run a sequence of buffer operations from the empty buffer. -/
def runOps (c : ℕ) (ops : List BufOp) : List ℚ × List (List ℚ) :=
  ops.foldl (applyOp c) ([], [])

/-- Total samples appended by a sequence of buffer operations, in order. -/
def appendedOf : List BufOp → List ℚ
  | [] => []
  | BufOp.append xs :: rest => xs ++ appendedOf rest
  | BufOp.pop :: rest => appendedOf rest

/-- A small concrete operation sequence used as witness input. -/
def ops4 : List BufOp :=
  [BufOp.append [1, 2, 3], BufOp.pop, BufOp.pop, BufOp.append [4]]

/-! ## The session pipeline as a state machine

The component's mutable refs and React state become the fields of
`AppState`.  The JS event loop runs each handler atomically between
`await` points; the `Event` type lists those atomic resumptions:

* `startClick`: `handleStart` up to the `await apiStart()` (lines 129-142);
* `startOk`/`startErr`: that call resolving (media acquisition and node
  wiring, lines 144-173, are compressed into `startOk`) or rejecting
  (the catch block, lines 174-182);
* `capture`: one `onaudioprocess` callback (lines 164-170), which appends
  resampled audio and invokes `pump` when the single-flight flag is clear;
* `pushOk`/`pushErr`: the pending `apiPushChunk` resolving (the pump
  merges the response and continues its loop, lines 95-99) or rejecting
  (the catch/finally, lines 100-106);
* `stopClick`: `handleStop` through teardown up to the `await apiFinish`
  (lines 185-198);
* `finishOk`/`finishErr`: that call resolving or rejecting, plus the
  `finally` cleanup (lines 199-208).

Ghost fields record what the transport observes: `extracted` is every
chunk sliced off the buffer in order, `issued` every chunk passed to
`apiPushChunk` in order, `inflight` the requests currently outstanding
(a list so that the single-flight property is provable rather than
assumed), and `finishCalls` counts `apiFinish` calls. -/

/-- The `status` React state: 'idle' | 'recording' | 'error'. -/
inductive Status where
  | idle
  | recording
  | error
deriving DecidableEq

/-- The component state: React state, refs, and ghost observation logs. -/
structure AppState where
  isRecording : Bool
  transcript : String
  language : String
  status : Status
  errorMsg : String
  sessionId : Option String
  buffer : List ℚ
  pushing : Bool
  recording : Bool
  captureActive : Bool
  awaitingStart : Bool
  awaitingFinish : Bool
  extracted : List (List ℚ)
  issued : List (List ℚ)
  inflight : List (List ℚ)
  finishCalls : ℕ
deriving DecidableEq

/-- The initial component state (all refs null/empty, status idle). -/
def initState : AppState :=
  { isRecording := false, transcript := "", language := "", status := Status.idle
    errorMsg := "", sessionId := none, buffer := [], pushing := false
    recording := false, captureActive := false, awaitingStart := false
    awaitingFinish := false, extracted := [], issued := [], inflight := []
    finishCalls := 0 }

/-- JS truthiness of `sessionIdRef.current : string | null`: `null` and
the empty string are falsy. -/
def jsTruthy : Option String → Bool
  | none => false
  | some sid => !(sid == "")

/-- Result of running the pump's `while` loop until it suspends on an
`apiPushChunk` or exits. -/
structure DrainResult where
  buffer : List ℚ
  extracted : List (List ℚ)
  issued : List (List ℚ)
  inflight : List (List ℚ)
  pushing : Bool
deriving DecidableEq

/-- The pump's `while` loop (lines 90-99), run from its condition check
until it either suspends awaiting `apiPushChunk` (`pushing` stays true and
the chunk joins `inflight`) or exits (`pushing := false`, the `finally`).
When `sessionIdRef.current` is falsy the sliced chunk is dropped and the
loop continues synchronously.  Structural recursion on a fuel argument;
callers pass `buffer.length + 1`, which can never be exhausted because
each iteration consumes `chunkSamples > 0` samples. -/
def drainLoopF : ℕ → Bool → Option String → List ℚ →
    List (List ℚ) → List (List ℚ) → List (List ℚ) → DrainResult
  | 0, _, _, buffer, extracted, issued, inflight =>
    ⟨buffer, extracted, issued, inflight, false⟩
  | fuel + 1, recording, sessionId, buffer, extracted, issued, inflight =>
    if recording && decide (chunkSamples ≤ buffer.length) then
      let chunk := buffer.take chunkSamples
      let rest := buffer.drop chunkSamples
      if jsTruthy sessionId then
        ⟨rest, extracted ++ [chunk], issued ++ [chunk], inflight ++ [chunk], true⟩
      else
        drainLoopF fuel recording sessionId rest (extracted ++ [chunk]) issued inflight
    else ⟨buffer, extracted, issued, inflight, false⟩

/-- `pump()` (lines 83-107): return at once if the single-flight flag is
set, else set it and run the drain loop until it suspends or exits. -/
def pumpRun (s : AppState) : AppState :=
  if s.pushing then s
  else
    let r := drainLoopF (s.buffer.length + 1) s.recording s.sessionId
      s.buffer s.extracted s.issued s.inflight
    { s with buffer := r.buffer, extracted := r.extracted, issued := r.issued,
             inflight := r.inflight, pushing := r.pushing }

/-- Atomic event-loop turns driving the pipeline (see the section header). -/
inductive Event where
  | startClick
  | startOk (sid : String)
  | startErr
  | capture (block : List ℚ) (srcSr : ℚ)
  | pushOk (text lang : String)
  | pushErr
  | stopClick
  | finishOk (text lang : String)
  | finishErr
deriving DecidableEq

/-- One event-loop turn.  Each branch is the corresponding synchronous
segment of the source handlers, acting on `AppState`. -/
def stepE (s : AppState) : Event → AppState
  | Event.startClick =>
    if s.isRecording then s
    else
      { s with transcript := "", language := "", errorMsg := "", buffer := [],
               status := Status.recording, isRecording := true, recording := true,
               awaitingStart := true }
  | Event.startOk sid =>
    if s.awaitingStart then
      { s with sessionId := some sid, awaitingStart := false, captureActive := true }
    else s
  | Event.startErr =>
    if s.awaitingStart then
      { s with errorMsg := "Start failed", status := Status.error,
               isRecording := false, recording := false, sessionId := none,
               awaitingStart := false, captureActive := false }
    else s
  | Event.capture block srcSr =>
    if s.captureActive && s.recording then
      pumpRun { s with
        buffer := concatFloat32 s.buffer (resampleLinear block srcSr TARGET_SR) }
    else s
  | Event.pushOk text lang =>
    match s.inflight with
    | [] => s
    | _ :: rest =>
      let s1 := { s with transcript := text, language := lang, inflight := rest }
      let r := drainLoopF (s1.buffer.length + 1) s1.recording s1.sessionId
        s1.buffer s1.extracted s1.issued s1.inflight
      { s1 with buffer := r.buffer, extracted := r.extracted, issued := r.issued,
                inflight := r.inflight, pushing := r.pushing }
  | Event.pushErr =>
    match s.inflight with
    | [] => s
    | _ :: rest =>
      { s with inflight := rest, errorMsg := "Backend error",
               status := Status.error, pushing := false }
  | Event.stopClick =>
    if s.isRecording then
      let s1 := { s with recording := false, isRecording := false,
                         captureActive := false }
      if jsTruthy s.sessionId then
        { s1 with finishCalls := s1.finishCalls + 1, awaitingFinish := true }
      else
        { s1 with status := Status.idle, sessionId := none, buffer := [],
                  pushing := false }
    else s
  | Event.finishOk text lang =>
    if s.awaitingFinish then
      { s with language := lang, transcript := text, status := Status.idle,
               sessionId := none, buffer := [], pushing := false,
               awaitingFinish := false }
    else s
  | Event.finishErr =>
    if s.awaitingFinish then
      { s with errorMsg := "Finish failed", status := Status.error,
               sessionId := none, buffer := [], pushing := false,
               awaitingFinish := false }
    else s

/-- Run a sequence of event-loop turns from the initial state. -/
def runEvents (evs : List Event) : AppState := evs.foldl stepE initState

/-- States reachable from the initial state by event-loop turns. -/
inductive Reach : AppState → Prop
  | init : Reach initState
  | next (s : AppState) (e : Event) : Reach s → Reach (stepE s e)

/-! ## Concrete executions

`CH` is a concrete 500 ms chunk: 8000 zero samples captured at 16000 Hz
(so resampling is the identity).  The traces below follow the source
semantics step by step; each `stepP`/`stepQ`/`stepR` lemma computes one
event-loop turn. -/

/-- One full chunk of silence at the target rate. -/
def CH : List ℚ := List.replicate 8000 0

/-- State after clicking start from the initial state. -/
def P1 : AppState :=
  { isRecording := true, transcript := "", language := "", status := Status.recording
    errorMsg := "", sessionId := none, buffer := [], pushing := false
    recording := true, captureActive := false, awaitingStart := true
    awaitingFinish := false, extracted := [], issued := [], inflight := []
    finishCalls := 0 }

/-- State after `apiStart` resolves with session id "a" and capture wires up. -/
def P2 : AppState :=
  { P1 with sessionId := some "a", awaitingStart := false, captureActive := true }

/-- State after one captured chunk: the pump extracted and sent it and is
suspended awaiting the response. -/
def P3 : AppState :=
  { P2 with buffer := [], extracted := [CH], issued := [CH], inflight := [CH],
            pushing := true }

/-- After stop is clicked while the first push is still in flight. -/
def P4 : AppState :=
  { P3 with recording := false, isRecording := false, captureActive := false,
            finishCalls := 1, awaitingFinish := true }

/-- After `apiFinish` resolves: the `finally` clears the single-flight flag
although the pushed chunk's request is still outstanding. -/
def P5 : AppState :=
  { P4 with language := "l", transcript := "t", status := Status.idle,
            sessionId := none, buffer := [], pushing := false,
            awaitingFinish := false }

/-- A second recording is started while the old push is still in flight. -/
def P6 : AppState :=
  { P5 with transcript := "", language := "", errorMsg := "", buffer := [],
            status := Status.recording, isRecording := true, recording := true,
            awaitingStart := true }

/-- The second session "b" is established. -/
def P7 : AppState :=
  { P6 with sessionId := some "b", awaitingStart := false, captureActive := true }

/-- A captured chunk triggers a fresh pump: two pushes now in flight. -/
def P8 : AppState :=
  { P7 with buffer := [], extracted := [CH, CH], issued := [CH, CH],
            inflight := [CH, CH], pushing := true }

/-- Stop / restart while a push is outstanding (claim C1's failing input). -/
def c1trace : List Event :=
  [Event.startClick, Event.startOk "a", Event.capture CH 16000,
   Event.stopClick, Event.finishOk "t" "l", Event.startClick,
   Event.startOk "b", Event.capture CH 16000]

/-- A second full chunk arrives while the first push is in flight, then
stop is clicked (claim C2's trace). -/
def c2trace : List Event :=
  [Event.startClick, Event.startOk "a", Event.capture CH 16000,
   Event.capture CH 16000, Event.stopClick, Event.pushOk "t" "l",
   Event.finishOk "u" "m"]

/-- A push fails, then capture keeps running (claim C3's trace). -/
def c3trace : List Event :=
  [Event.startClick, Event.startOk "a", Event.capture CH 16000,
   Event.pushErr, Event.capture CH 16000]

/-- c2 trace intermediate: the second chunk sits in the buffer while the
pump is suspended on the first push. -/
def Q4 : AppState := { P3 with buffer := CH }

/-- c2 trace: stop clicked with a full chunk still buffered. -/
def Q5 : AppState :=
  { Q4 with recording := false, isRecording := false, captureActive := false,
            finishCalls := 1, awaitingFinish := true }

/-- c2 trace: the in-flight push resolves after stop; the pump exits at
once because the recording flag is down, sending nothing. -/
def Q6 : AppState :=
  { Q5 with transcript := "t", language := "l", inflight := [], pushing := false }

/-- c2 trace: finish resolves; the buffered full chunk is discarded. -/
def Q7 : AppState :=
  { Q6 with language := "m", transcript := "u", status := Status.idle,
            sessionId := none, buffer := [], pushing := false,
            awaitingFinish := false }

/-- c3 trace: the push fails; error status, flag cleared, pipeline intact. -/
def R4 : AppState :=
  { P3 with inflight := [], errorMsg := "Backend error", status := Status.error,
            pushing := false }

/-- c3 trace: the next capture drains and pushes again, in Error state. -/
def R5 : AppState :=
  { R4 with buffer := [], extracted := [CH, CH], issued := [CH, CH],
            inflight := [CH], pushing := true }

/-- c7 intermediate: session established, nothing captured. -/
def W2 (sid : String) : AppState :=
  { P1 with sessionId := some sid, awaitingStart := false, captureActive := true }

/-- c7 intermediate: stop clicked at once; `apiFinish` called. -/
def W3 (sid : String) : AppState :=
  { W2 sid with recording := false, isRecording := false, captureActive := false,
                finishCalls := 1, awaitingFinish := true }

/-- c7 final state: finish resolved. -/
def W4 (sid u m : String) : AppState :=
  { W3 sid with language := m, transcript := u, status := Status.idle,
                sessionId := none, buffer := [], pushing := false,
                awaitingFinish := false }

/-- State used to witness `c9_pump_discards_without_session`: recording
with a full buffered chunk and a null session id. -/
def w9 : AppState := { P2 with sessionId := none, buffer := CH }

theorem jsRound_eq (q : ℚ) : jsRound q = ⌊q + 1 / 2⌋ := by
  rw [jsRound, Rat.floor_def', ← Rat.floor_def]

theorem chunkSamples_spec :
    (chunkSamples : ℤ) = jsRound (TARGET_SR * (CHUNK_MS / 1000)) := by
  norm_num [chunkSamples, jsRound_eq, TARGET_SR, CHUNK_MS]

/-! ## Helper lemmas: symbolic behaviour of the individual event turns -/

theorem resampleLinear_self (input : List ℚ) (r : ℚ) :
    resampleLinear input r r = input := by
  simp [resampleLinear]

theorem jsTruthy_some {sid : String} (h : sid ≠ "") :
    jsTruthy (some sid) = true := by
  simp [jsTruthy, h]

theorem stepE_capture_run (s : AppState) (block : List ℚ) (srcSr : ℚ)
    (hc : s.captureActive = true) (hr : s.recording = true) :
    stepE s (Event.capture block srcSr) =
      pumpRun { s with
        buffer := concatFloat32 s.buffer (resampleLinear block srcSr TARGET_SR) } := by
  simp [stepE, hc, hr]

theorem stepE_capture_skip (s : AppState) (block : List ℚ) (srcSr : ℚ)
    (h : s.captureActive = false ∨ s.recording = false) :
    stepE s (Event.capture block srcSr) = s := by
  rcases h with h | h <;> simp [stepE, h]

theorem pumpRun_busy (s : AppState) (hp : s.pushing = true) : pumpRun s = s := by
  simp [pumpRun, hp]

theorem drainLoopF_succ (fuel : ℕ) (recording : Bool) (sessionId : Option String)
    (buffer : List ℚ) (extracted issued inflight : List (List ℚ)) :
    drainLoopF (fuel + 1) recording sessionId buffer extracted issued inflight =
      if recording && decide (chunkSamples ≤ buffer.length) then
        if jsTruthy sessionId then
          ⟨buffer.drop chunkSamples, extracted ++ [buffer.take chunkSamples],
           issued ++ [buffer.take chunkSamples], inflight ++ [buffer.take chunkSamples],
           true⟩
        else
          drainLoopF fuel recording sessionId (buffer.drop chunkSamples)
            (extracted ++ [buffer.take chunkSamples]) issued inflight
      else ⟨buffer, extracted, issued, inflight, false⟩ := rfl

theorem pumpRun_suspend (s : AppState) (sid : String) (hp : s.pushing = false)
    (hr : s.recording = true) (hs : s.sessionId = some sid) (hsid : sid ≠ "")
    (hb : chunkSamples ≤ s.buffer.length) :
    pumpRun s =
      { s with buffer := s.buffer.drop chunkSamples,
               extracted := s.extracted ++ [s.buffer.take chunkSamples],
               issued := s.issued ++ [s.buffer.take chunkSamples],
               inflight := s.inflight ++ [s.buffer.take chunkSamples],
               pushing := true } := by
  rw [pumpRun, if_neg (by simp [hp]), drainLoopF_succ, if_pos (by simp [hr, hb]),
      hs, if_pos (jsTruthy_some hsid)]

theorem pumpRun_exit (s : AppState) (hp : s.pushing = false)
    (h : (s.recording && decide (chunkSamples ≤ s.buffer.length)) = false) :
    pumpRun s = s := by
  rw [pumpRun, if_neg (by simp [hp]), drainLoopF_succ, if_neg (by simp [h])]
  rw [show (⟨s.buffer, s.extracted, s.issued, s.inflight, false⟩ : DrainResult) =
    ⟨s.buffer, s.extracted, s.issued, s.inflight, s.pushing⟩ from by rw [hp]]

theorem stepE_startClick (s : AppState) (h : s.isRecording = false) :
    stepE s Event.startClick =
      { s with transcript := "", language := "", errorMsg := "", buffer := [],
               status := Status.recording, isRecording := true, recording := true,
               awaitingStart := true } := by
  simp [stepE, h]

theorem stepE_startOk (s : AppState) (sid : String) (h : s.awaitingStart = true) :
    stepE s (Event.startOk sid) =
      { s with sessionId := some sid, awaitingStart := false,
               captureActive := true } := by
  simp [stepE, h]

theorem stepE_stopClick_finish (s : AppState) (h : s.isRecording = true)
    (hsid : jsTruthy s.sessionId = true) :
    stepE s Event.stopClick =
      { s with recording := false, isRecording := false, captureActive := false,
               finishCalls := s.finishCalls + 1, awaitingFinish := true } := by
  simp [stepE, h, hsid]

theorem stepE_finishOk (s : AppState) (text lang : String)
    (h : s.awaitingFinish = true) :
    stepE s (Event.finishOk text lang) =
      { s with language := lang, transcript := text, status := Status.idle,
               sessionId := none, buffer := [], pushing := false,
               awaitingFinish := false } := by
  simp [stepE, h]

theorem stepE_pushErr_pop (s : AppState) (c : List ℚ) (cs : List (List ℚ))
    (h : s.inflight = c :: cs) :
    stepE s Event.pushErr =
      { s with inflight := cs, errorMsg := "Backend error",
               status := Status.error, pushing := false } := by
  simp [stepE, h]

theorem stepE_pushOk_exit (s : AppState) (text lang : String) (c : List ℚ)
    (cs : List (List ℚ)) (h : s.inflight = c :: cs)
    (hrec : (s.recording && decide (chunkSamples ≤ s.buffer.length)) = false) :
    stepE s (Event.pushOk text lang) =
      { s with transcript := text, language := lang, inflight := cs,
               pushing := false } := by
  simp only [stepE, h]
  rw [drainLoopF_succ, if_neg (by simp_all)]

theorem CH_len : CH.length = 8000 := by rw [CH, List.length_replicate]

theorem chunk_le_CH : chunkSamples ≤ CH.length := by
  rw [CH_len, chunkSamples]

theorem CH_take : CH.take chunkSamples = CH := by
  rw [chunkSamples, CH, List.take_replicate, Nat.min_self]

theorem CH_drop : CH.drop chunkSamples = [] := by
  rw [chunkSamples, CH, List.drop_replicate, Nat.sub_self, List.replicate_zero]

theorem foldl_stepE_cons (s : AppState) (e : Event) (evs : List Event) :
    List.foldl stepE s (e :: evs) = List.foldl stepE (stepE s e) evs := rfl

theorem foldl_stepE_nil (s : AppState) : List.foldl stepE s [] = s := rfl

theorem stepP1 : stepE initState Event.startClick = P1 := rfl

theorem stepP2 : stepE P1 (Event.startOk "a") = P2 := rfl

theorem stepP3 : stepE P2 (Event.capture CH 16000) = P3 := by
  rw [stepE_capture_run P2 CH 16000 rfl rfl,
      show concatFloat32 P2.buffer (resampleLinear CH 16000 TARGET_SR) = CH from rfl,
      pumpRun_suspend _ "a" rfl rfl rfl (by decide) chunk_le_CH,
      CH_take, CH_drop]
  rfl

theorem stepP4 : stepE P3 Event.stopClick = P4 := rfl

theorem stepP5 : stepE P4 (Event.finishOk "t" "l") = P5 := rfl

theorem stepP6 : stepE P5 Event.startClick = P6 := rfl

theorem stepP7 : stepE P6 (Event.startOk "b") = P7 := rfl

theorem stepP8 : stepE P7 (Event.capture CH 16000) = P8 := by
  rw [stepE_capture_run P7 CH 16000 rfl rfl,
      show concatFloat32 P7.buffer (resampleLinear CH 16000 TARGET_SR) = CH from rfl,
      pumpRun_suspend _ "b" rfl rfl rfl (by decide) chunk_le_CH,
      CH_take, CH_drop]
  rfl

theorem stepQ4 : stepE P3 (Event.capture CH 16000) = Q4 := by
  rw [stepE_capture_run P3 CH 16000 rfl rfl,
      show concatFloat32 P3.buffer (resampleLinear CH 16000 TARGET_SR) = CH from rfl,
      pumpRun_busy _ rfl]
  rfl

theorem stepQ5 : stepE Q4 Event.stopClick = Q5 := rfl

theorem stepQ6 : stepE Q5 (Event.pushOk "t" "l") = Q6 := by
  rw [stepE_pushOk_exit Q5 "t" "l" CH [] rfl
      (by rw [show Q5.recording = false from rfl, Bool.false_and])]
  rfl

theorem stepQ7 : stepE Q6 (Event.finishOk "u" "m") = Q7 := rfl

theorem stepR4 : stepE P3 Event.pushErr = R4 := rfl

theorem stepR5 : stepE R4 (Event.capture CH 16000) = R5 := by
  rw [stepE_capture_run R4 CH 16000 rfl rfl,
      show concatFloat32 R4.buffer (resampleLinear CH 16000 TARGET_SR) = CH from rfl,
      pumpRun_suspend _ "a" rfl rfl rfl (by decide) chunk_le_CH,
      CH_take, CH_drop]
  rfl

/-! ## The claims -/

/-- Claim C1: the single-flight guarantee ("at most one pushChunk call is
ever in flight") is broken by the code.  In `c1trace` a chunk is pushed
(one request in flight after three events), the user stops and the session
finishes while that request is still outstanding — `handleStop`'s
`finally` clears `pushingRef` (line 207) even though the pump is still
suspended inside `apiPushChunk` — and a restarted session's first captured
chunk then starts a second concurrent drain: two requests in flight. -/
theorem c1_two_pushes_in_flight :
    (runEvents (List.take 3 c1trace)).inflight.length = 1
    ∧ (runEvents c1trace).inflight.length = 2 := by
  have h3 : runEvents (List.take 3 c1trace) = P3 := by
    show List.foldl stepE initState (List.take 3 c1trace) = P3
    rw [show List.take 3 c1trace =
          [Event.startClick, Event.startOk "a", Event.capture CH 16000] from rfl,
        foldl_stepE_cons, stepP1, foldl_stepE_cons, stepP2, foldl_stepE_cons,
        stepP3, foldl_stepE_nil]
  have h8 : runEvents c1trace = P8 := by
    show List.foldl stepE initState c1trace = P8
    rw [c1trace, foldl_stepE_cons, stepP1, foldl_stepE_cons, stepP2,
        foldl_stepE_cons, stepP3, foldl_stepE_cons, stepP4, foldl_stepE_cons,
        stepP5, foldl_stepE_cons, stepP6, foldl_stepE_cons, stepP7,
        foldl_stepE_cons, stepP8, foldl_stepE_nil]
  rw [h3, h8]
  exact ⟨rfl, rfl⟩

/-- Claim C2 counterexample: in `c2trace`, at the moment stop is clicked
(five events in) the recording flag has been cleared and a full chunk
(`chunkSamples` samples) is still in the SegmentBuffer; yet by the end of
the session only ONE chunk was ever passed to `pushChunk` and the buffer
was reset to empty.  Clearing the recording flag makes the pump's `while`
condition false, so the remaining full chunk is discarded, not drained —
refuting "the DeliveryPump first drains all remaining full chunks ...
and only then suspends". -/
theorem c2_stop_discards_full_chunk :
    chunkSamples ≤ (runEvents (List.take 5 c2trace)).buffer.length
    ∧ (runEvents (List.take 5 c2trace)).recording = false
    ∧ (runEvents c2trace).issued.length = 1
    ∧ (runEvents c2trace).finishCalls = 1
    ∧ (runEvents c2trace).buffer = [] := by
  have h5 : runEvents (List.take 5 c2trace) = Q5 := by
    show List.foldl stepE initState (List.take 5 c2trace) = Q5
    rw [show List.take 5 c2trace =
          [Event.startClick, Event.startOk "a", Event.capture CH 16000,
           Event.capture CH 16000, Event.stopClick] from rfl,
        foldl_stepE_cons, stepP1, foldl_stepE_cons, stepP2, foldl_stepE_cons,
        stepP3, foldl_stepE_cons, stepQ4, foldl_stepE_cons, stepQ5,
        foldl_stepE_nil]
  have h7 : runEvents c2trace = Q7 := by
    show List.foldl stepE initState c2trace = Q7
    rw [c2trace, foldl_stepE_cons, stepP1, foldl_stepE_cons, stepP2,
        foldl_stepE_cons, stepP3, foldl_stepE_cons, stepQ4, foldl_stepE_cons,
        stepQ5, foldl_stepE_cons, stepQ6, foldl_stepE_cons, stepQ7,
        foldl_stepE_nil]
  rw [h5, h7]
  exact ⟨chunk_le_CH, rfl, rfl, rfl, rfl⟩

/-- Claim C2 as amended: clearing the recording flag makes the
DeliveryPump CEASE draining — no further chunk is passed to `pushChunk`
at or after stop, the buffer is left untouched by the stop turn itself,
the Capture Source is torn down, `finishSession` is called exactly once,
and when it completes the remaining buffered samples (full chunks
included) are discarded. -/
theorem c2_stop_behaviour (s : AppState) (u m : String)
    (h : s.isRecording = true) (hsid : jsTruthy s.sessionId = true) :
    (stepE s Event.stopClick).recording = false
    ∧ (stepE s Event.stopClick).captureActive = false
    ∧ (stepE s Event.stopClick).issued = s.issued
    ∧ (stepE s Event.stopClick).buffer = s.buffer
    ∧ (stepE s Event.stopClick).finishCalls = s.finishCalls + 1
    ∧ (stepE (stepE s Event.stopClick) (Event.finishOk u m)).buffer = []
    ∧ (stepE (stepE s Event.stopClick) (Event.finishOk u m)).issued = s.issued
    ∧ (stepE (stepE s Event.stopClick) (Event.finishOk u m)).finishCalls
        = s.finishCalls + 1 := by
  rw [stepE_stopClick_finish s h hsid]
  rw [stepE_finishOk _ u m rfl]
  exact ⟨rfl, rfl, rfl, rfl, rfl, rfl, rfl, rfl⟩

/-- Witness for `c2_stop_behaviour` at a concrete recording state with a
non-empty buffer. -/
theorem c2_stop_behaviour_witness :
    (stepE Q4 Event.stopClick).recording = false
    ∧ (stepE Q4 Event.stopClick).captureActive = false
    ∧ (stepE Q4 Event.stopClick).issued = Q4.issued
    ∧ (stepE Q4 Event.stopClick).buffer = Q4.buffer
    ∧ (stepE Q4 Event.stopClick).finishCalls = Q4.finishCalls + 1
    ∧ (stepE (stepE Q4 Event.stopClick) (Event.finishOk "u" "m")).buffer = []
    ∧ (stepE (stepE Q4 Event.stopClick) (Event.finishOk "u" "m")).issued = Q4.issued
    ∧ (stepE (stepE Q4 Event.stopClick) (Event.finishOk "u" "m")).finishCalls
        = Q4.finishCalls + 1 :=
  c2_stop_behaviour Q4 "u" "m" rfl rfl

/-- Claim C3 counterexample: in `c3trace` a `pushChunk` failure puts the
session in Error (one chunk issued so far), yet a later capture event
drains and issues a SECOND chunk — draining is not halted and the
pipeline is not torn down, refuting "no further chunk draining occurs
afterwards (the pipeline is torn down)". -/
theorem c3_draining_continues_after_error :
    (runEvents (List.take 4 c3trace)).status = Status.error
    ∧ (runEvents (List.take 4 c3trace)).issued.length = 1
    ∧ (runEvents c3trace).status = Status.error
    ∧ (runEvents c3trace).issued.length = 2 := by
  have h4 : runEvents (List.take 4 c3trace) = R4 := by
    show List.foldl stepE initState (List.take 4 c3trace) = R4
    rw [show List.take 4 c3trace =
          [Event.startClick, Event.startOk "a", Event.capture CH 16000,
           Event.pushErr] from rfl,
        foldl_stepE_cons, stepP1, foldl_stepE_cons, stepP2, foldl_stepE_cons,
        stepP3, foldl_stepE_cons, stepR4, foldl_stepE_nil]
  have h5 : runEvents c3trace = R5 := by
    show List.foldl stepE initState c3trace = R5
    rw [c3trace, foldl_stepE_cons, stepP1, foldl_stepE_cons, stepP2,
        foldl_stepE_cons, stepP3, foldl_stepE_cons, stepR4, foldl_stepE_cons,
        stepR5, foldl_stepE_nil]
  rw [h4, h5]
  exact ⟨rfl, rfl, rfl, rfl⟩

/-- Claim C3 as amended: a `pushChunk` failure transitions the session
to Error and halts the CURRENT drain loop (the single-flight flag is
cleared), but the pipeline is NOT torn down — the recording flag, capture
wiring, session id and buffer are untouched, so later capture events can
drain again; and a subsequent `start()` resets transcript, language,
error message and buffer to empty (capture resumes only at the later
`startOk` turn, so the reset precedes it). -/
theorem c3_pushfail_behaviour (s s2 : AppState) (c : List ℚ)
    (cs : List (List ℚ)) (h : s.inflight = c :: cs)
    (h2 : s2.isRecording = false) :
    (stepE s Event.pushErr).status = Status.error
    ∧ (stepE s Event.pushErr).pushing = false
    ∧ (stepE s Event.pushErr).recording = s.recording
    ∧ (stepE s Event.pushErr).captureActive = s.captureActive
    ∧ (stepE s Event.pushErr).sessionId = s.sessionId
    ∧ (stepE s Event.pushErr).buffer = s.buffer
    ∧ (stepE s2 Event.startClick).transcript = ""
    ∧ (stepE s2 Event.startClick).language = ""
    ∧ (stepE s2 Event.startClick).errorMsg = ""
    ∧ (stepE s2 Event.startClick).buffer = []
    ∧ (stepE s2 Event.startClick).captureActive = s2.captureActive := by
  rw [stepE_pushErr_pop s c cs h, stepE_startClick s2 h2]
  exact ⟨rfl, rfl, rfl, rfl, rfl, rfl, rfl, rfl, rfl, rfl, rfl⟩

/-- Witness for `c3_pushfail_behaviour`: the failing push in `c3trace`
(state `P3`, one request in flight) and a start from the initial state. -/
theorem c3_pushfail_behaviour_witness :
    (stepE P3 Event.pushErr).status = Status.error
    ∧ (stepE P3 Event.pushErr).pushing = false
    ∧ (stepE P3 Event.pushErr).recording = P3.recording
    ∧ (stepE P3 Event.pushErr).captureActive = P3.captureActive
    ∧ (stepE P3 Event.pushErr).sessionId = P3.sessionId
    ∧ (stepE P3 Event.pushErr).buffer = P3.buffer
    ∧ (stepE initState Event.startClick).transcript = ""
    ∧ (stepE initState Event.startClick).language = ""
    ∧ (stepE initState Event.startClick).errorMsg = ""
    ∧ (stepE initState Event.startClick).buffer = []
    ∧ (stepE initState Event.startClick).captureActive = initState.captureActive :=
  c3_pushfail_behaviour P3 initState CH [] rfl rfl

/-- Fold invariant for the SegmentBuffer: the extracted chunks followed by
the remaining buffer are exactly the previously held samples plus the
appended ones, in order, and every extracted chunk has full length. -/
theorem runOps_aux (c : ℕ) (ops : List BufOp) (st : List ℚ × List (List ℚ))
    (hlen : ∀ ch ∈ st.2, ch.length = c) :
    ((ops.foldl (applyOp c) st).2.flatten ++ (ops.foldl (applyOp c) st).1
        = st.2.flatten ++ st.1 ++ appendedOf ops)
    ∧ ∀ ch ∈ (ops.foldl (applyOp c) st).2, ch.length = c := by
  induction ops generalizing st with
  | nil => simpa [appendedOf] using hlen
  | cons op rest ih =>
    rw [List.foldl_cons]
    cases op with
    | append xs =>
      obtain ⟨h1, h2⟩ := ih (applyOp c st (BufOp.append xs)) hlen
      refine ⟨?_, h2⟩
      rw [h1]
      simp [applyOp, concatFloat32, appendedOf, List.append_assoc]
    | pop =>
      by_cases hc : c ≤ st.1.length
      · have happ : applyOp c st BufOp.pop
            = (st.1.drop c, st.2 ++ [st.1.take c]) := by
          simp [applyOp, popChunk, hc]
        have hlen2 : ∀ ch ∈ (st.1.drop c, st.2 ++ [st.1.take c]).2, ch.length = c := by
          intro ch hch
          rcases List.mem_append.mp hch with hch | hch
          · exact hlen ch hch
          · rw [List.mem_singleton.mp hch, List.length_take]
            exact Nat.min_eq_left hc
        obtain ⟨h1, h2⟩ := ih _ hlen2
        refine ⟨?_, by rw [happ]; exact h2⟩
        rw [happ, h1]
        simp [appendedOf, List.append_assoc]
      · have happ : applyOp c st BufOp.pop = st := by
          simp [applyOp, popChunk, hc]
        obtain ⟨h1, h2⟩ := ih st hlen
        rw [happ, h1]
        exact ⟨by simp [appendedOf], h2⟩

/-- Claim C4: buffer conservation.  Over any interleaving of appends
(totalling `appendedOf ops`) and pops of size `c`: the extracted chunks,
in order, followed by the remaining buffer reconstruct the appended
sample stream (FIFO, each successful pop removed exactly the first `c`
samples); every extracted chunk has length exactly `c`; the remaining
length is `T - M*c` and `M*c ≤ T`; and a pop on a buffer shorter than
`c` leaves the state unchanged while a pop on a sufficient buffer splits
off exactly the first `c` samples. -/
theorem c4_buffer_conservation (c : ℕ) (ops : List BufOp) :
    ((runOps c ops).2.flatten ++ (runOps c ops).1 = appendedOf ops)
    ∧ (∀ ch ∈ (runOps c ops).2, ch.length = c)
    ∧ (runOps c ops).1.length + (runOps c ops).2.length * c
        = (appendedOf ops).length
    ∧ (runOps c ops).1.length = (appendedOf ops).length - (runOps c ops).2.length * c
    ∧ (runOps c ops).2.length * c ≤ (appendedOf ops).length
    ∧ ∀ buf chunks, applyOp c (buf, chunks) BufOp.pop
        = if c ≤ buf.length then (buf.drop c, chunks ++ [buf.take c])
          else (buf, chunks) := by
  obtain ⟨h1, h2⟩ := runOps_aux c ops ([], []) (by simp)
  have hrw : runOps c ops = List.foldl (applyOp c) ([], []) ops := rfl
  rw [hrw]
  have h1' : (List.foldl (applyOp c) ([], []) ops).2.flatten
      ++ (List.foldl (applyOp c) ([], []) ops).1 = appendedOf ops := by
    simpa using h1
  have hsum : (List.foldl (applyOp c) ([], []) ops).1.length
      + (List.foldl (applyOp c) ([], []) ops).2.length * c
      = (appendedOf ops).length := by
    have hlen := congrArg List.length h1'
    rw [List.length_append, List.length_flatten] at hlen
    have hmap : (List.foldl (applyOp c) ([], []) ops).2.map List.length
        = List.replicate (List.foldl (applyOp c) ([], []) ops).2.length c :=
      List.eq_replicate_iff.mpr ⟨by simp, by
        intro b hb
        obtain ⟨ch, hch, rfl⟩ := List.mem_map.mp hb
        exact h2 ch hch⟩
    rw [hmap, List.sum_replicate, smul_eq_mul] at hlen
    omega
  refine ⟨h1', h2, hsum, by omega, by omega, ?_⟩
  intro buf chunks
  by_cases hc : c ≤ buf.length
  · simp [applyOp, popChunk, hc]
  · simp [applyOp, popChunk, hc]

/-- Witness for `c4_buffer_conservation` at chunk size 2 and `ops4`. -/
theorem c4_buffer_conservation_witness :
    ((runOps 2 ops4).2.flatten ++ (runOps 2 ops4).1 = appendedOf ops4)
    ∧ (∀ ch ∈ (runOps 2 ops4).2, ch.length = 2)
    ∧ (runOps 2 ops4).1.length + (runOps 2 ops4).2.length * 2
        = (appendedOf ops4).length
    ∧ (runOps 2 ops4).1.length = (appendedOf ops4).length - (runOps 2 ops4).2.length * 2
    ∧ (runOps 2 ops4).2.length * 2 ≤ (appendedOf ops4).length
    ∧ ∀ buf chunks, applyOp 2 (buf, chunks) BufOp.pop
        = if 2 ≤ buf.length then (buf.drop 2, chunks ++ [buf.take 2])
          else (buf, chunks) :=
  c4_buffer_conservation 2 ops4

theorem jsRound_natCast (n : ℕ) : jsRound (n : ℚ) = n := by
  rw [jsRound_eq, add_comm, Int.floor_add_nat, Int.floor_eq_zero_iff.mpr (by norm_num)]
  omega

theorem jsRound_zero : jsRound 0 = 0 := by
  have h := jsRound_natCast 0
  simpa using h

/-- Claim C5: the resampler's output length is `round(n * 16000 / r)`
when resampling to the 16000 Hz target (`TARGET_SR`), for any positive
source rate `r` and input length `n`; and an empty input yields an empty
output. -/
theorem c5_resample_length (input : List ℚ) (r : ℚ) (hr : 0 < r) :
    ((resampleLinear input r TARGET_SR).length : ℤ)
      = jsRound ((input.length : ℚ) * 16000 / r)
    ∧ resampleLinear ([] : List ℚ) r TARGET_SR = [] := by
  have hzero : ∀ m : ℕ, 0 ≤ jsRound ((m : ℚ) * 16000 / r) := by
    intro m
    rw [jsRound_eq]
    refine Int.le_floor.mpr ?_
    have h0 : (0 : ℚ) ≤ (m : ℚ) * 16000 / r := by positivity
    push_cast
    linarith
  have harg : ∀ m : ℕ, (m : ℚ) * (TARGET_SR / r) = (m : ℚ) * 16000 / r := by
    intro m; rw [TARGET_SR]; ring
  constructor
  · by_cases hre : r = TARGET_SR
    · subst hre
      rw [resampleLinear_self,
          show ((input.length : ℚ) * 16000 / TARGET_SR) = ((input.length : ℚ)) from by
            rw [TARGET_SR]; field_simp,
          jsRound_natCast]
    · rw [resampleLinear, if_neg hre]
      simp only [List.length_map, List.length_range]
      rw [harg, max_eq_right (hzero input.length)]
      exact Int.toNat_of_nonneg (hzero input.length)
  · by_cases hre : r = TARGET_SR
    · rw [hre, resampleLinear_self]
    · rw [resampleLinear, if_neg hre]
      simp only [List.length_nil, Nat.cast_zero, zero_mul, jsRound_zero, max_self,
        Int.toNat_zero, List.range_zero, List.map_nil]

/-- Witness for `c5_resample_length`: three samples at 8000 Hz resample
to the 16000 Hz target. -/
theorem c5_resample_length_witness :
    ((resampleLinear [1, 0, 1] 8000 TARGET_SR).length : ℤ)
      = jsRound ((([1, 0, 1] : List ℚ).length : ℚ) * 16000 / 8000)
    ∧ resampleLinear ([] : List ℚ) 8000 TARGET_SR = [] :=
  c5_resample_length [1, 0, 1] 8000 (by norm_num)

/-- Claim C6: when the source rate equals the destination rate the
resampler returns the input unchanged. -/
theorem c6_resample_identity (input : List ℚ) (srcSr dstSr : ℚ)
    (h : srcSr = dstSr) : resampleLinear input srcSr dstSr = input := by
  rw [h]
  exact resampleLinear_self input dstSr

/-- Witness for `c6_resample_identity` at a concrete input and rate. -/
theorem c6_resample_identity_witness :
    resampleLinear [1, 0, -1] 44100 44100 = [1, 0, -1] :=
  c6_resample_identity [1, 0, -1] 44100 44100 rfl

/-- Claim C7: a session of `start()` followed immediately by `stop()`
with zero samples captured issues no `pushChunk` call (nothing ever
issued or in flight) and exactly one `finishSession` call. -/
theorem c7_immediate_stop (sid u m : String) (hsid : sid ≠ "") :
    (runEvents [Event.startClick, Event.startOk sid, Event.stopClick,
        Event.finishOk u m]).issued = []
    ∧ (runEvents [Event.startClick, Event.startOk sid, Event.stopClick,
        Event.finishOk u m]).inflight = []
    ∧ (runEvents [Event.startClick, Event.startOk sid, Event.stopClick,
        Event.finishOk u m]).finishCalls = 1 := by
  have h2 : stepE P1 (Event.startOk sid) = W2 sid := by
    rw [stepE_startOk P1 sid rfl]; rfl
  have h3 : stepE (W2 sid) Event.stopClick = W3 sid := by
    rw [stepE_stopClick_finish (W2 sid) rfl (jsTruthy_some hsid)]; rfl
  have h4 : stepE (W3 sid) (Event.finishOk u m) = W4 sid u m := by
    rw [stepE_finishOk (W3 sid) u m rfl]; rfl
  have hrun : runEvents [Event.startClick, Event.startOk sid, Event.stopClick,
      Event.finishOk u m] = W4 sid u m := by
    show List.foldl stepE initState _ = W4 sid u m
    rw [foldl_stepE_cons, stepP1, foldl_stepE_cons, h2, foldl_stepE_cons, h3,
        foldl_stepE_cons, h4, foldl_stepE_nil]
  rw [hrun]
  exact ⟨rfl, rfl, rfl⟩

/-- Witness for `c7_immediate_stop` with session id "a". -/
theorem c7_immediate_stop_witness :
    (runEvents [Event.startClick, Event.startOk "a", Event.stopClick,
        Event.finishOk "u" "m"]).issued = []
    ∧ (runEvents [Event.startClick, Event.startOk "a", Event.stopClick,
        Event.finishOk "u" "m"]).inflight = []
    ∧ (runEvents [Event.startClick, Event.startOk "a", Event.stopClick,
        Event.finishOk "u" "m"]).finishCalls = 1 :=
  c7_immediate_stop "a" "u" "m" (by decide)

theorem chunkSamples_pos : 0 < chunkSamples := by rw [chunkSamples]; omega

/-- With a falsy session id the drain loop slices off every full chunk
and discards it: nothing is issued, nothing joins `inflight`, and the
loop exits with the flag down. -/
theorem drainLoopF_none (fuel : ℕ) : ∀ (buf : List ℚ) (ext iss inf : List (List ℚ)),
    buf.length < fuel →
    ∃ delta, drainLoopF fuel true none buf ext iss inf =
      ⟨buf.drop (chunkSamples * (buf.length / chunkSamples)), ext ++ delta,
       iss, inf, false⟩ := by
  induction fuel with
  | zero => intro buf _ _ _ h; exact absurd h (Nat.not_lt_zero _)
  | succ fuel ih =>
    intro buf ext iss inf hlt
    rw [drainLoopF_succ]
    by_cases hc : chunkSamples ≤ buf.length
    · rw [if_pos (by simp [hc]), if_neg (by simp [jsTruthy])]
      obtain ⟨delta, hdelta⟩ := ih (buf.drop chunkSamples)
        (ext ++ [buf.take chunkSamples]) iss inf
        (by rw [List.length_drop]; have := chunkSamples_pos; omega)
      rw [hdelta]
      refine ⟨[buf.take chunkSamples] ++ delta, ?_⟩
      rw [List.drop_drop, List.append_assoc]
      have hidx : chunkSamples + chunkSamples * ((buf.drop chunkSamples).length / chunkSamples)
          = chunkSamples * (buf.length / chunkSamples) := by
        have hds : (buf.drop chunkSamples).length = buf.length - chunkSamples :=
          List.length_drop chunkSamples buf
        rw [hds]
        rw [chunkSamples] at hc ⊢
        omega
      rw [hidx]
    · rw [if_neg (by simp [hc])]
      refine ⟨[], ?_⟩
      rw [Nat.div_eq_of_lt (Nat.lt_of_not_le hc), Nat.mul_zero, List.drop_zero,
          List.append_nil]

/-- Claim C9: whenever the recording flag is set and a full chunk is
buffered, an idle pump slices the chunk off the buffer unconditionally;
with a (truthy) session id the chunk is passed to `pushChunk` and the
pump suspends, while with a null session id every full chunk is sliced
off and silently discarded — never issued, never in flight, never put
back in the buffer. -/
theorem c9_pump_discards_without_session (s : AppState) (hp : s.pushing = false)
    (hr : s.recording = true) (hb : chunkSamples ≤ s.buffer.length) :
    (∀ sid, s.sessionId = some sid → sid ≠ "" →
      pumpRun s = { s with buffer := s.buffer.drop chunkSamples,
                           extracted := s.extracted ++ [s.buffer.take chunkSamples],
                           issued := s.issued ++ [s.buffer.take chunkSamples],
                           inflight := s.inflight ++ [s.buffer.take chunkSamples],
                           pushing := true })
    ∧ (s.sessionId = none →
        (pumpRun s).issued = s.issued
        ∧ (pumpRun s).inflight = s.inflight
        ∧ (pumpRun s).buffer
            = s.buffer.drop (chunkSamples * (s.buffer.length / chunkSamples))
        ∧ (pumpRun s).pushing = false) := by
  constructor
  · intro sid hs hsid
    exact pumpRun_suspend s sid hp hr hs hsid hb
  · intro hnone
    obtain ⟨delta, hd⟩ := drainLoopF_none (s.buffer.length + 1) s.buffer
      s.extracted s.issued s.inflight (Nat.lt_succ_self _)
    have hrun : pumpRun s = { s with
                                buffer := s.buffer.drop
                                  (chunkSamples * (s.buffer.length / chunkSamples)),
                                extracted := s.extracted ++ delta,
                                issued := s.issued,
                                inflight := s.inflight, pushing := false } := by
      rw [pumpRun, if_neg (by simp [hp]), hr, hnone, hd]
    rw [hrun]
    exact ⟨rfl, rfl, rfl, rfl⟩

/-- Witness for `c9_pump_discards_without_session` at `w9`. -/
theorem c9_pump_discards_witness :
    (pumpRun w9).issued = w9.issued
    ∧ (pumpRun w9).inflight = w9.inflight
    ∧ (pumpRun w9).buffer
        = w9.buffer.drop (chunkSamples * (w9.buffer.length / chunkSamples))
    ∧ (pumpRun w9).pushing = false :=
  (c9_pump_discards_without_session w9 rfl rfl chunk_le_CH).2 rfl

/-- Claim C10: `start()` while already recording and `stop()` while not
recording return at the guard, leaving the state (network counters,
transcript, language, buffer, session id, everything) unchanged. -/
theorem c10_guard_noop (s : AppState) :
    (s.isRecording = true → stepE s Event.startClick = s)
    ∧ (s.isRecording = false → stepE s Event.stopClick = s) := by
  constructor
  · intro h; simp [stepE, h]
  · intro h; simp [stepE, h]

/-- Witness for `c10_guard_noop`: a recording state for the start guard
and the initial state for the stop guard. -/
theorem c10_guard_noop_witness :
    stepE P2 Event.startClick = P2 ∧ stepE initState Event.stopClick = initState :=
  ⟨(c10_guard_noop P2).1 rfl, (c10_guard_noop initState).2 rfl⟩

theorem stepE_pushOk_eq (s : AppState) (text lang : String) (c : List ℚ)
    (cs : List (List ℚ)) (h : s.inflight = c :: cs) :
    stepE s (Event.pushOk text lang) =
      (let s1 : AppState := { s with transcript := text, language := lang,
                                     inflight := cs };
       let r := drainLoopF (s1.buffer.length + 1) s1.recording s1.sessionId
         s1.buffer s1.extracted s1.issued s1.inflight
       { s1 with buffer := r.buffer, extracted := r.extracted, issued := r.issued,
                 inflight := r.inflight, pushing := r.pushing }) := by
  simp only [stepE, h]

/-- If the drain loop leaves the single-flight flag set, it has left a
request in flight. -/
theorem drainLoopF_pushing (fuel : ℕ) (recording : Bool) (sessionId : Option String) :
    ∀ (buffer : List ℚ) (extracted issued inflight : List (List ℚ)),
    (drainLoopF fuel recording sessionId buffer extracted issued inflight).pushing
        = true →
    (drainLoopF fuel recording sessionId buffer extracted issued inflight).inflight
        ≠ [] := by
  induction fuel with
  | zero => intro buffer ext iss inf h; exact absurd h (by simp [drainLoopF])
  | succ fuel ih =>
    intro buffer ext iss inf
    rw [drainLoopF_succ]
    by_cases h1 : (recording && decide (chunkSamples ≤ buffer.length)) = true
    · rw [if_pos h1]
      by_cases h2 : jsTruthy sessionId = true
      · rw [if_pos h2]
        intro _
        simp
      · rw [if_neg h2]
        exact ih _ _ _ _
    · rw [if_neg h1]
      intro h
      exact absurd h (by simp)

/-- Reachability invariant: whenever the single-flight flag is set, a
`pushChunk` request is in flight (whose resolution will resume the pump
and either re-suspend with a new request or clear the flag), so the
pipeline can never stick with the flag up and no pending resumption. -/
theorem reach_pushing_inflight (s : AppState) (h : Reach s) :
    s.pushing = true → s.inflight ≠ [] := by
  induction h with
  | init => intro h; exact absurd h (by simp [initState])
  | next s e hs ih =>
    have keep : ∀ e2 : Event, (stepE s e2).pushing = s.pushing →
        (stepE s e2).inflight = s.inflight →
        ((stepE s e2).pushing = true → (stepE s e2).inflight ≠ []) := by
      intro e2 hpush hinf hp
      rw [hinf]
      exact ih (by rw [← hpush]; exact hp)
    have down : ∀ e2 : Event, (stepE s e2).pushing = false →
        ((stepE s e2).pushing = true → (stepE s e2).inflight ≠ []) := by
      intro e2 hpush hp
      rw [hpush] at hp
      exact absurd hp (by simp)
    cases e with
    | startClick =>
      by_cases hr : s.isRecording = true
      · exact keep _ (by simp [stepE, hr]) (by simp [stepE, hr])
      · exact keep _ (by simp [stepE, hr]) (by simp [stepE, hr])
    | startOk sid =>
      by_cases ha : s.awaitingStart = true
      · exact keep _ (by simp [stepE, ha]) (by simp [stepE, ha])
      · exact keep _ (by simp [stepE, ha]) (by simp [stepE, ha])
    | startErr =>
      by_cases ha : s.awaitingStart = true
      · exact keep _ (by simp [stepE, ha]) (by simp [stepE, ha])
      · exact keep _ (by simp [stepE, ha]) (by simp [stepE, ha])
    | capture block srcSr =>
      by_cases hcap : (s.captureActive && s.recording) = true
      · rw [show stepE s (Event.capture block srcSr) = pumpRun { s with
            buffer := concatFloat32 s.buffer (resampleLinear block srcSr TARGET_SR) }
          from by simp only [stepE, if_pos hcap]]
        by_cases hp : s.pushing = true
        · rw [pumpRun_busy { s with
            buffer := concatFloat32 s.buffer (resampleLinear block srcSr TARGET_SR) } hp]
          exact ih
        · rw [pumpRun, if_neg (by simpa using hp)]
          exact drainLoopF_pushing _ _ _ _ _ _ _
      · exact keep _ (by simp only [stepE, if_neg hcap]) (by simp only [stepE, if_neg hcap])
    | pushOk text lang =>
      cases hin : s.inflight with
      | nil => exact keep _ (by simp [stepE, hin]) (by simp [stepE, hin])
      | cons c cs =>
        rw [stepE_pushOk_eq s text lang c cs hin]
        exact drainLoopF_pushing _ _ _ _ _ _ _
    | pushErr =>
      cases hin : s.inflight with
      | nil => exact keep _ (by simp [stepE, hin]) (by simp [stepE, hin])
      | cons c cs => exact down _ (by rw [stepE_pushErr_pop s c cs hin])
    | stopClick =>
      by_cases hr : s.isRecording = true
      · by_cases ht : jsTruthy s.sessionId = true
        · exact keep _ (by rw [stepE_stopClick_finish s hr ht])
            (by rw [stepE_stopClick_finish s hr ht])
        · exact down _ (by simp [stepE, hr, ht])
      · exact keep _ (by simp [stepE, hr]) (by simp [stepE, hr])
    | finishOk text lang =>
      by_cases hf : s.awaitingFinish = true
      · exact down _ (by rw [stepE_finishOk s text lang hf])
      · exact keep _ (by simp [stepE, hf]) (by simp [stepE, hf])
    | finishErr =>
      by_cases hf : s.awaitingFinish = true
      · exact down _ (by simp [stepE, hf])
      · exact keep _ (by simp [stepE, hf]) (by simp [stepE, hf])

/-- Claim C8: single-flight flag discipline.  In every reachable state a
set flag means a request is in flight — the pump sets the flag only when
it suspends on `pushChunk` and clears it on every exit path (the
`finally`), so the pipeline never reaches a state where the flag stays
set with nothing pending and no pump can ever run again; moreover a
failing `pushChunk` always leaves the flag cleared, so a later trigger
can start a new drain. -/
theorem c8_flag_discipline (s : AppState) (h : Reach s) :
    (s.pushing = true → s.inflight ≠ [])
    ∧ (stepE s Event.pushErr).pushing = false := by
  have hinv := reach_pushing_inflight s h
  refine ⟨hinv, ?_⟩
  cases hin : s.inflight with
  | nil =>
    rw [show stepE s Event.pushErr = s from by simp [stepE, hin]]
    cases hpu : s.pushing
    · rfl
    · exact absurd hin (hinv hpu)
  | cons c cs =>
    rw [stepE_pushErr_pop s c cs hin]

/-- Witness for `c8_flag_discipline` at the reachable state `P3` (flag
set, one request in flight). -/
theorem c8_flag_discipline_witness :
    (P3.pushing = true → P3.inflight ≠ [])
    ∧ (stepE P3 Event.pushErr).pushing = false :=
  c8_flag_discipline P3
    (stepP3 ▸ Reach.next P2 (Event.capture CH 16000)
      (stepP2 ▸ Reach.next P1 (Event.startOk "a")
        (stepP1 ▸ Reach.next initState Event.startClick Reach.init)))

end SpeechDemo
